import Mathlib

/-!
Verification development for the hidapipp / HDK-Logger HID wrapper layer.

The C++ sources are shallowly embedded: byte buffers become lists of
naturals, the native hidapi capability becomes an explicit environment
supplying the call result, the bytes written into the caller's buffer and
the per-handle error-accessor value, and C++ exceptions become `Except`.
Two source variants are embedded side by side:

* namespace `Hidapipp` — the modern headers (`src/hidapipp/Device.h`
  together with the second `HandleError.h` variant in
  `src/unnamed/part_002`, and the `Enumeration.h` iterator in
  `src/unnamed/part_003`);
* namespace `Logger` — the older throwing-only wrapper embedded in
  `src/HDK-Logger.cpp` (identical to the second half of
  `src/unnamed/part_003`), plus the demo CLI `main`.
-/

abbrev DataByte := Nat

abbrev DataVector := List DataByte

/-- C++ `std::vector<unsigned char>::resize(n)`: keep the first `n` bytes,
value-initialize (zero-fill) any growth. -/
def resizeVec (v : DataVector) (n : Nat) : DataVector :=
  v.take n ++ List.replicate (n - v.length) 0

/-- Conversion of a C `int` to the 64-bit `size_t` taken by
`std::vector::resize`: modular (two's-complement) conversion. -/
def usizeOfInt (r : Int) : Nat := (r % (2 : Int) ^ 64).toNat

/-- Simulated behavior of one native hidapi call on an open device handle:
the `int` result code the call returns, the in-place transformation the
capability applies to the caller's buffer (it also receives the length
argument of the call), and what `hid_error` on that handle would return
afterwards (`none` models a null `wchar_t` pointer). -/
structure NativeEnv where
  result : Int
  write : DataVector → Nat → DataVector
  errMsg : Option String

/-- `hid_read(handle, buf, maxLength)`: returns the result code and the
buffer contents after the call. -/
def hid_read (env : NativeEnv) (buf : DataVector) (maxLength : Nat) : Int × DataVector :=
  (env.result, env.write buf maxLength)

/-- `hid_get_feature_report(handle, buf, maxLength)` (spelled
`hid_getFeatureReport` at the call sites in this repository). -/
def hid_getFeatureReport (env : NativeEnv) (buf : DataVector) (maxLength : Nat) :
    Int × DataVector :=
  (env.result, env.write buf maxLength)

/-- `hid_error(handle)`: the per-handle error accessor; `none` is a null
pointer. -/
def hid_error (env : NativeEnv) : Option String := env.errMsg

namespace Hidapipp

/-- `hidapi::detail::handle_error` (modern variant, `src/unnamed/part_002`
lines 101-109): reads `hid_error`; when it is null the `assert` is a no-op
outside debug builds and the null message is returned unchanged; otherwise
the message is returned. -/
def handle_error (env : NativeEnv) : Option String :=
  match hid_error env with
  | none => none
  | some m => some m

/-- `hidapi::detail::handle_error_throwing` (`src/unnamed/part_002` lines
111-127): always throws; the thrown message distinguishes whether the
capability supplied an error message. -/
def handle_error_throwing (errMsg : Option String) : Except String Unit :=
  match errMsg with
  | some _ => Except.error "hidapi error"
  | none =>
    Except.error "hidapi error, but could not retrieve HIDAPI error message - should not happen"

/-- `hidapi::DataResult` (`src/hidapipp/Device.h` line 63): buffer plus
error pointer (null modelled as `none`). -/
abbrev DataResult := DataVector × Option String

/-- `hidapi::had_error` (`src/hidapipp/Device.h` lines 65-67). -/
def had_error (result : DataResult) : Bool := result.2.isSome

/-- `hidapi::get_error` (`src/hidapipp/Device.h` lines 68-70). -/
def get_error (result : DataResult) : Option String := result.2

/-- `hidapi::get_data` (`src/hidapipp/Device.h` lines 72-74). -/
def get_data (result : DataResult) : DataVector := result.1

/-- `hidapi::DEFAULT_MAX_LENGTH` (`src/hidapipp/Device.h` line 83). -/
def DEFAULT_MAX_LENGTH : Nat := 512

/-- `DeviceBase::handle_buffer_base` (`src/hidapipp/Device.h` lines
160-168): negative result consults the error translator and leaves the
buffer alone; non-negative result resizes the buffer to the call result. -/
def handle_buffer_base (env : NativeEnv) (data : DataVector) (callResult : Int) :
    DataVector × Option String :=
  if callResult < 0 then (data, handle_error env)
  else (resizeVec data callResult.toNat, none)

/-- `DeviceBase::handle_buffer` (`src/hidapipp/Device.h` lines 170-176,
non-throwing adapter): on a negative result the buffer is cleared and the
translator's message is attached. -/
def handle_buffer (env : NativeEnv) (data : DataVector) (callResult : Int) : DataResult :=
  let p := handle_buffer_base env data callResult
  if callResult < 0 then ([], p.2) else (p.1, p.2)

/-- `DeviceBase::handle_buffer_and_throw` (`src/hidapipp/Device.h` lines
178-184, throwing adapter): on a negative result it calls
`handle_error_throwing`, which always throws. -/
def handle_buffer_and_throw (env : NativeEnv) (data : DataVector) (callResult : Int) :
    Except String DataVector :=
  let p := handle_buffer_base env data callResult
  if callResult < 0 then
    match handle_error_throwing p.2 with
    | Except.error e => Except.error e
    | Except.ok _ => Except.ok p.1
  else Except.ok p.1

/-- `DeviceBase::read` (`src/hidapipp/Device.h` lines 110-114): allocates a
zeroed buffer of `maxLength` bytes, issues `hid_read`, hands off to
`handle_buffer`. -/
def read (env : NativeEnv) (maxLength : Nat) : DataResult :=
  let data : DataVector := List.replicate maxLength 0
  let r := hid_read env data maxLength
  handle_buffer env r.2 r.1

/-- The request buffer `DeviceBase::get_feature_report` prepares: a zeroed
buffer of `maxLength + 1` bytes whose first byte is set to `reportId`
(`src/hidapipp/Device.h` lines 122-123). -/
def featureRequest (reportId : DataByte) (maxLength : Nat) : DataVector :=
  (List.replicate (maxLength + 1) 0).set 0 reportId

/-- `DeviceBase::get_feature_report` (`src/hidapipp/Device.h` lines
120-126): prepares the request buffer, issues the feature-report query
with length argument `maxLength`, hands off to `handle_buffer`. -/
def get_feature_report (env : NativeEnv) (reportId : DataByte) (maxLength : Nat) : DataResult :=
  let r := hid_getFeatureReport env (featureRequest reportId maxLength) maxLength
  handle_buffer env r.2 r.1

/-- `DeviceBase::read_throwing` (`src/hidapipp/Device.h` lines 139-143). -/
def read_throwing (env : NativeEnv) (maxLength : Nat) : Except String DataVector :=
  let data : DataVector := List.replicate maxLength 0
  let r := hid_read env data maxLength
  handle_buffer_and_throw env r.2 r.1

/-- `DeviceBase::get_feature_report_throwing` (`src/hidapipp/Device.h`
lines 147-154). -/
def get_feature_report_throwing (env : NativeEnv) (reportId : DataByte) (maxLength : Nat) :
    Except String DataVector :=
  let r := hid_getFeatureReport env (featureRequest reportId maxLength) maxLength
  handle_buffer_and_throw env r.2 r.1

/-- `hidapi::detail::DeviceDeleter` (`src/hidapipp/Device.h` lines 44-51):
the close events it emits for a stored pointer — `hid_close` exactly when
the pointer is non-null, nothing for a null pointer.  Handles are modelled
as naturals, a null pointer as `none`. -/
def deviceDeleter (dev : Option Nat) : List Nat :=
  match dev with
  | some h => [h]
  | none => []

/-- `hidapi::UniqueDevice` (`src/hidapipp/Device.h` lines 196-239): owns an
optional native handle through a `unique_ptr` with `DeviceDeleter`. -/
structure UniqueDevice where
  dev : Option Nat

/-- `UniqueDevice`'s validity check (`explicit operator bool`,
`src/hidapipp/Device.h` line 90). -/
def UniqueDevice.isValid (u : UniqueDevice) : Bool := u.dev.isSome

/-- `UniqueDevice` move construction (`src/hidapipp/Device.h` line 221):
returns (destination, moved-from source); the source is left null. -/
def UniqueDevice.moveFrom (other : UniqueDevice) : UniqueDevice × UniqueDevice :=
  (⟨other.dev⟩, ⟨none⟩)

/-- `UniqueDevice` destruction: the owning `unique_ptr` runs
`DeviceDeleter` on the stored pointer; the emitted close events. -/
def UniqueDevice.destroy (u : UniqueDevice) : List Nat := deviceDeleter u.dev

/-- The exclusive-ownership lifecycle of the claim: construct from a
successful open, move, destroy the moved-from source, then destroy the
destination; the concatenated close events. -/
def uniqueMoveScenario (h : Nat) : List Nat :=
  let constructed : UniqueDevice := ⟨some h⟩
  let p := UniqueDevice.moveFrom constructed
  UniqueDevice.destroy p.2 ++ UniqueDevice.destroy p.1

/-- `std::shared_ptr` reference-count semantics for `SharedDevice`
(`src/hidapipp/Device.h` lines 243-267): destroying one of `n` remaining
owners runs the stored `DeviceDeleter` only when it is the last owner. -/
def destroySharedOwners : Nat → Option Nat → List Nat
  | 0, _ => []
  | 1, dev => deviceDeleter dev
  | n + 2, dev => destroySharedOwners (n + 1) dev

/-- The shared-ownership lifecycle of the claim: construct one owner from
a successful open, copy it `n` times, destroy all `n + 1` owners; the
concatenated close events. -/
def sharedCopyScenario (h : Nat) (n : Nat) : List Nat :=
  destroySharedOwners (n + 1) (some h)

/-- `hidapi::detail::EnumerationIterator` (`src/unnamed/part_003` lines
42-63): holds a pointer to the current `hid_device_info` chain entry
(null modelled as `none`, entries as naturals). -/
structure EnumerationIterator where
  dev : Option Nat

/-- `EnumerationIterator::operator*` (`src/unnamed/part_003` line 53):
yields the stored pointer. -/
def EnumerationIterator.deref (it : EnumerationIterator) : Option Nat := it.dev

/-- `detail::operator==` on enumeration iterators (`src/unnamed/part_003`
lines 66-69): compares the dereferenced pointers. -/
def iterEq (lhs rhs : EnumerationIterator) : Bool := lhs.deref == rhs.deref

/-- `detail::operator!=` on enumeration iterators (`src/unnamed/part_003`
lines 72-75). -/
def iterNeq (lhs rhs : EnumerationIterator) : Bool := lhs.deref != rhs.deref

/-- `Enumeration::end()` (`src/unnamed/part_003` lines 103-105): the
default-constructed iterator, holding a null pointer. -/
def endIterator : EnumerationIterator := ⟨none⟩

end Hidapipp

namespace Logger

/-- `hidapi::detail::handle_error` in the older throwing-only variant
(`src/HDK-Logger.cpp` lines 101-110, and the first `HandleError.h` in
`src/unnamed/part_002`): when `hid_error` is null it prints a diagnostic
and RETURNS WITHOUT THROWING; otherwise it throws `runtime_error`. -/
def handle_error (env : NativeEnv) : Except String Unit :=
  match hid_error env with
  | none => Except.ok ()
  | some _ => Except.error "hidapi error"

/-- `DeviceBase::handle_buffer_and_error` (`src/HDK-Logger.cpp` lines
179-184, `src/unnamed/part_003` lines 210-215): on a negative result calls
`handle_error` (which may return normally), then unconditionally executes
`ret.resize(callResult)` — the `int` is converted to `size_t`. -/
def handle_buffer_and_error (env : NativeEnv) (ret : DataVector) (callResult : Int) :
    Except String DataVector :=
  if callResult < 0 then
    match handle_error env with
    | Except.error e => Except.error e
    | Except.ok _ => Except.ok (resizeVec ret (usizeOfInt callResult))
  else Except.ok (resizeVec ret (usizeOfInt callResult))

/-- `DeviceBase::read` in the older variant (`src/HDK-Logger.cpp` lines
157-162). -/
def read (env : NativeEnv) (maxLength : Nat) : Except String DataVector :=
  let ret : DataVector := List.replicate maxLength 0
  let r := hid_read env ret maxLength
  handle_buffer_and_error env r.2 r.1

/-- `hid_device_info` fields as printed and inspected by the demo CLI
(`src/HDK-Logger.cpp` lines 250-258). -/
structure DeviceInfo where
  vendor_id : Nat
  product_id : Nat
  path : String
  serial_number : Option String
  manufacturer_string : Option String
  product_string : Option String
  release_number : Nat
  interface_number : Int
deriving DecidableEq

/-- The hardcoded vendor/product match of the demo CLI
(`src/HDK-Logger.cpp` line 260). -/
def hdkMatch (d : DeviceInfo) : Bool :=
  d.vendor_id == 0x1532 && d.product_id == 0x0b00

/-- Observable actions of the demo CLI.  `readReport` is the action the
specification claims (printing a polled report); the embedded `main` is
shown never to emit it. -/
inductive DemoEvent where
  | printDevice (d : DeviceInfo)
  | printHdkFound
  | printNotFound
  | openDev (path : String)
  | setBlocking (dev : Option Nat)
  | readReport (size : Nat)
deriving DecidableEq

/-- Whether a demo event is a polled-report read/print. -/
def DemoEvent.isRead : DemoEvent → Bool
  | DemoEvent.readReport _ => true
  | _ => false

/-- Simulated environment for the demo CLI: the enumeration chain and the
result of `hid_open_path`. -/
structure DemoEnv where
  devices : List DeviceInfo
  openPath : String → Option Nat

/-- The enumeration loop of `main` (`src/HDK-Logger.cpp` lines 249-264):
prints every device, prints the HDK banner and (re)assigns `hdk_path` on
every matching device; returns the final path and the event trace. -/
def demoLoop : List DeviceInfo → String → String × List DemoEvent
  | [], acc => (acc, [])
  | d :: rest, acc =>
    let evs := DemoEvent.printDevice d ::
      (if hdkMatch d then [DemoEvent.printHdkFound] else [])
    let acc2 := if hdkMatch d then d.path else acc
    let p := demoLoop rest acc2
    (p.1, evs ++ p.2)

/-- `main` of the demo CLI (`src/HDK-Logger.cpp` lines 246-279): after the
enumeration loop, an empty path prints the not-found message and returns
-1; otherwise the device is opened by path, blocking mode is set, and 0 is
returned.  No read is ever issued. -/
def mainDemo (env : DemoEnv) : Int × List DemoEvent :=
  let p := demoLoop env.devices ""
  if p.1 = "" then
    (-1, p.2 ++ [DemoEvent.printNotFound])
  else
    (0, p.2 ++ [DemoEvent.openDev p.1, DemoEvent.setBlocking (env.openPath p.1)])

/-- A concrete attached HDK tracker used as the counterexample input. -/
def hdkDevice : DeviceInfo :=
  ⟨0x1532, 0x0b00, "p", none, none, none, 0, 0⟩

/-- Counterexample environment: exactly one attached device, matching the
hardcoded pair, whose open succeeds. -/
def envFound : DemoEnv :=
  ⟨[hdkDevice], fun _ => some 1⟩

end Logger

theorem resizeVec_length (v : DataVector) (n : Nat) : (resizeVec v n).length = n := by
  simp [resizeVec]
  omega

theorem getLastD_path_cons (L : List Logger.DeviceInfo) (d : Logger.DeviceInfo) (acc : String) :
    (((d :: L).getLast?.map Logger.DeviceInfo.path).getD acc) =
      ((L.getLast?.map Logger.DeviceInfo.path).getD d.path) := by
  cases L with
  | nil => rfl
  | cons e L2 =>
    rw [List.getLast?_cons_cons]
    cases hx : (e :: L2).getLast? with
    | none => simp [List.getLast?_eq_none_iff] at hx
    | some x => simp [hx]

theorem demoLoop_fst (devs : List Logger.DeviceInfo) (acc : String) :
    (Logger.demoLoop devs acc).1 =
      (((devs.filter fun d => Logger.hdkMatch d).getLast?.map Logger.DeviceInfo.path).getD acc) := by
  induction devs generalizing acc with
  | nil => rfl
  | cons d rest ih =>
    have hfst : (Logger.demoLoop (d :: rest) acc).1 =
        (Logger.demoLoop rest (if Logger.hdkMatch d then d.path else acc)).1 := rfl
    rw [hfst, ih]
    by_cases hm : Logger.hdkMatch d = true
    · rw [List.filter_cons_of_pos hm, getLastD_path_cons, if_pos hm]
    · rw [List.filter_cons_of_neg hm, if_neg hm]

theorem demoLoop_prints (devs : List Logger.DeviceInfo) (acc : String) :
    devs.map Logger.DemoEvent.printDevice ⊆ (Logger.demoLoop devs acc).2 := by
  induction devs generalizing acc with
  | nil => simp [Logger.demoLoop]
  | cons d rest ih =>
    intro x hx
    rw [List.map_cons, List.mem_cons] at hx
    have h2 : (Logger.demoLoop (d :: rest) acc).2 =
        (Logger.DemoEvent.printDevice d ::
          (if Logger.hdkMatch d then [Logger.DemoEvent.printHdkFound] else [])) ++
          (Logger.demoLoop rest (if Logger.hdkMatch d then d.path else acc)).2 := rfl
    rw [h2]
    rcases hx with h1 | h1
    · subst h1
      simp
    · exact List.mem_append_right _ (ih _ h1)

theorem demoLoop_noRead (devs : List Logger.DeviceInfo) (acc : String) :
    ((Logger.demoLoop devs acc).2.all fun e => !e.isRead) = true := by
  induction devs generalizing acc with
  | nil => rfl
  | cons d rest ih =>
    have h2 : (Logger.demoLoop (d :: rest) acc).2 =
        (Logger.DemoEvent.printDevice d ::
          (if Logger.hdkMatch d then [Logger.DemoEvent.printHdkFound] else [])) ++
          (Logger.demoLoop rest (if Logger.hdkMatch d then d.path else acc)).2 := rfl
    rw [h2, List.all_append]
    rw [ih _]
    cases Logger.hdkMatch d <;> simp [Logger.DemoEvent.isRead]

/-- Claim C9: equality of two enumeration cursors holds if and only if
their underlying pointers to the current chain entry are equal; the end
cursor compares equal to exactly those cursors whose current position is
null; inequality is the negation of equality. -/
theorem C9_iterator_equality (a b : Hidapipp.EnumerationIterator) :
    (Hidapipp.iterEq a b = true ↔ a.dev = b.dev) ∧
    (Hidapipp.iterEq Hidapipp.endIterator a = true ↔ a.dev = none) ∧
    Hidapipp.iterNeq a b = !Hidapipp.iterEq a b := by
  refine ⟨?_, ?_, ?_⟩
  · simp [Hidapipp.iterEq, Hidapipp.EnumerationIterator.deref]
  · simp only [Hidapipp.iterEq, Hidapipp.endIterator, Hidapipp.EnumerationIterator.deref,
      beq_iff_eq]
    exact eq_comm
  · simp [Hidapipp.iterEq, Hidapipp.iterNeq, bne]

/-- Claim C5: a successfully acquired native handle is closed exactly once
and a null handle is never closed: the construct/move/destroy exclusive
lifecycle emits exactly one close of the acquired handle, the moved-from
source is left invalid, destroying a null-holding device closes nothing,
and a shared device copied n times then destroyed n+1 times closes exactly
once, on the last destruction. -/
theorem C5_close_exactly_once (h n : Nat) :
    Hidapipp.uniqueMoveScenario h = [h] ∧
    (Hidapipp.UniqueDevice.moveFrom ⟨some h⟩).2.isValid = false ∧
    Hidapipp.UniqueDevice.destroy ⟨none⟩ = [] ∧
    Hidapipp.sharedCopyScenario h n = [h] := by
  refine ⟨rfl, rfl, rfl, ?_⟩
  induction n with
  | zero => rfl
  | succ k ih =>
    simpa [Hidapipp.sharedCopyScenario, Hidapipp.destroySharedOwners] using ih

/-- Claim C1 evaluated at the failing input: with a negative native result
and a null error-accessor value, the throwing read and feature-report
calls do raise, but the non-throwing calls return an empty buffer with a
NULL error indicator, so had_error is false — contradicting the claim
(and the header's own documentation) that the indicator is non-null for
every accessor value including null. -/
theorem C1_negative_null_divergence :
    Hidapipp.read_throwing ⟨-7, fun b _ => b, none⟩ 8 =
      Except.error
        "hidapi error, but could not retrieve HIDAPI error message - should not happen" ∧
    Hidapipp.get_feature_report_throwing ⟨-7, fun b _ => b, none⟩ 9 8 =
      Except.error
        "hidapi error, but could not retrieve HIDAPI error message - should not happen" ∧
    Hidapipp.read ⟨-7, fun b _ => b, none⟩ 8 = ([], none) ∧
    Hidapipp.get_feature_report ⟨-7, fun b _ => b, none⟩ 9 8 = ([], none) ∧
    Hidapipp.had_error (Hidapipp.read ⟨-7, fun b _ => b, none⟩ 8) = false :=
  ⟨rfl, rfl, rfl, rfl, rfl⟩

/-- Claim C2 evaluated at the failing input: when the capability reports
failure (result -3) and supplies no message, the non-throwing error
translator returns the null message unchanged — no generic synthetic
message — and the failure is surfaced as success (empty buffer, had_error
false); only the throwing path substitutes a synthetic wording. -/
theorem C2_no_synthetic_message_nonthrowing :
    Hidapipp.handle_error ⟨-3, fun b _ => b, none⟩ = none ∧
    Hidapipp.read ⟨-3, fun b _ => b, none⟩ 5 = ([], none) ∧
    Hidapipp.had_error (Hidapipp.read ⟨-3, fun b _ => b, none⟩ 5) = false ∧
    Hidapipp.handle_error_throwing none =
      Except.error
        "hidapi error, but could not retrieve HIDAPI error message - should not happen" :=
  ⟨rfl, rfl, rfl, rfl⟩

/-- Claim C4 evaluated: on a non-negative result both adapters yield the
identical buffer, but at the failing input (negative result, null error
accessor) the throwing adapter raises while the non-throwing adapter
reports had_error false — the raise condition and the error-report
condition are not identical, contradicting the policy equivalence law. -/
theorem C4_policy_equivalence_divergence :
    (Hidapipp.read ⟨3, fun b _ => b, some "e"⟩ 4 = ([0, 0, 0], none) ∧
      Hidapipp.read_throwing ⟨3, fun b _ => b, some "e"⟩ 4 = Except.ok [0, 0, 0]) ∧
    (Hidapipp.read_throwing ⟨-1, fun b _ => b, none⟩ 4 =
        Except.error
          "hidapi error, but could not retrieve HIDAPI error message - should not happen" ∧
      Hidapipp.had_error (Hidapipp.read ⟨-1, fun b _ => b, none⟩ 4) = false) :=
  ⟨⟨rfl, rfl⟩, rfl, rfl⟩

/-- Claim C7: for every successful read (native result r with
0 ≤ r ≤ maxLength) the returned buffer's length equals r, and it equals
the requested maximum only when r equals maxLength. -/
theorem C7_success_buffer_length (env : NativeEnv) (maxLength : Nat)
    (h0 : 0 ≤ env.result) (h1 : env.result ≤ (maxLength : Int)) :
    (Hidapipp.read env maxLength).1.length = env.result.toNat ∧
    ((Hidapipp.read env maxLength).1.length = maxLength ↔ env.result = (maxLength : Int)) := by
  have hneg : ¬ env.result < 0 := not_lt.mpr h0
  unfold Hidapipp.read Hidapipp.handle_buffer Hidapipp.handle_buffer_base hid_read
  simp only [hneg, if_false, resizeVec_length]
  constructor
  · trivial
  · omega

/-- Witness for C7 at native result 3, maxLength 5. -/
theorem C7_witness :
    (0 : Int) ≤ (3 : Int) ∧ (3 : Int) ≤ ((5 : Nat) : Int) ∧
    ((Hidapipp.read ⟨3, fun b _ => b, none⟩ 5).1.length = (3 : Int).toNat ∧
      ((Hidapipp.read ⟨3, fun b _ => b, none⟩ 5).1.length = 5 ↔ (3 : Int) = ((5 : Nat) : Int))) :=
  ⟨by decide, by decide,
    C7_success_buffer_length ⟨3, fun b _ => b, none⟩ 5 (by decide) (by decide)⟩

/-- Claim C8: a native read result of exactly zero bytes is never
classified as an error by either API: the non-throwing read returns an
empty buffer with had_error false and the throwing read returns an empty
buffer without raising. -/
theorem C8_zero_reports_no_error (env : NativeEnv) (maxLength : Nat)
    (hz : env.result = 0) :
    Hidapipp.read env maxLength = ([], none) ∧
    Hidapipp.had_error (Hidapipp.read env maxLength) = false ∧
    Hidapipp.read_throwing env maxLength = Except.ok [] := by
  unfold Hidapipp.read Hidapipp.read_throwing Hidapipp.handle_buffer
    Hidapipp.handle_buffer_and_throw Hidapipp.handle_buffer_base hid_read
  simp [hz, Hidapipp.had_error, resizeVec]

/-- Witness for C8 at native result 0, maxLength 4. -/
theorem C8_witness :
    (NativeEnv.mk 0 (fun b _ => b) none).result = 0 ∧
    (Hidapipp.read ⟨0, fun b _ => b, none⟩ 4 = ([], none) ∧
      Hidapipp.had_error (Hidapipp.read ⟨0, fun b _ => b, none⟩ 4) = false ∧
      Hidapipp.read_throwing ⟨0, fun b _ => b, none⟩ 4 = Except.ok []) :=
  ⟨rfl, C8_zero_reports_no_error ⟨0, fun b _ => b, none⟩ 4 rfl⟩

/-- Claim C6: for a successful feature-report query (positive result) on a
capability that echoes the first byte of the buffer it is handed (the
documented hidapi feature-report contract), the supplied reportId is the
first byte of the request buffer issued to the native call, the returned
buffer keeps that ID byte at offset 0, and the rest of the returned buffer
is the call-filled buffer trimmed to the reported length. -/
theorem C6_feature_report_id_preserved (env : NativeEnv) (reportId : DataByte) (maxLength : Nat)
    (hecho : (env.write (Hidapipp.featureRequest reportId maxLength) maxLength).head? =
      (Hidapipp.featureRequest reportId maxLength).head?)
    (hpos : 0 < env.result) :
    (Hidapipp.featureRequest reportId maxLength).head? = some reportId ∧
    (Hidapipp.get_feature_report env reportId maxLength).1.head? = some reportId ∧
    (Hidapipp.get_feature_report env reportId maxLength).1 =
      resizeVec (env.write (Hidapipp.featureRequest reportId maxLength) maxLength)
        env.result.toNat := by
  have hreq : (Hidapipp.featureRequest reportId maxLength).head? = some reportId := by
    simp [Hidapipp.featureRequest, List.replicate_succ]
  have hneg : ¬ env.result < 0 := by omega
  have hout : (Hidapipp.get_feature_report env reportId maxLength).1 =
      resizeVec (env.write (Hidapipp.featureRequest reportId maxLength) maxLength)
        env.result.toNat := by
    unfold Hidapipp.get_feature_report Hidapipp.handle_buffer Hidapipp.handle_buffer_base
      hid_getFeatureReport
    simp [hneg]
  refine ⟨hreq, ?_, hout⟩
  rw [hout]
  rw [hreq] at hecho
  obtain ⟨w, hw⟩ :
      ∃ w, env.write (Hidapipp.featureRequest reportId maxLength) maxLength = reportId :: w := by
    cases hww : env.write (Hidapipp.featureRequest reportId maxLength) maxLength with
    | nil =>
      rw [hww] at hecho
      simp at hecho
    | cons a t =>
      rw [hww] at hecho
      simp at hecho
      exact ⟨t, by rw [hecho]⟩
  rw [hw]
  obtain ⟨m, hm⟩ : ∃ m, env.result.toNat = m + 1 := ⟨env.result.toNat - 1, by omega⟩
  rw [hm]
  simp [resizeVec]

/-- Witness for C6: identity-writing capability, result 2, reportId 7,
maxLength 3. -/
theorem C6_witness :
    ((NativeEnv.mk 2 (fun b _ => b) none).write (Hidapipp.featureRequest 7 3) 3).head? =
      (Hidapipp.featureRequest 7 3).head? ∧
    (0 : Int) < 2 ∧
    ((Hidapipp.featureRequest 7 3).head? = some 7 ∧
      (Hidapipp.get_feature_report ⟨2, fun b _ => b, none⟩ 7 3).1.head? = some 7 ∧
      (Hidapipp.get_feature_report ⟨2, fun b _ => b, none⟩ 7 3).1 =
        resizeVec ((NativeEnv.mk 2 (fun b _ => b) none).write (Hidapipp.featureRequest 7 3) 3)
          (2 : Int).toNat) :=
  ⟨rfl, by decide, C6_feature_report_id_preserved ⟨2, fun b _ => b, none⟩ 7 3 rfl (by decide)⟩

/-- Claim C10: in the older throwing-only wrapper, a negative native
result combined with a null error-accessor value makes handle_error
return without throwing, after which handle_buffer_and_error resizes the
buffer to the negative result converted to an unsigned 64-bit size — an
enormous value (above 2^63) — and the read returns it as a success. -/
theorem C10_negative_null_no_error_resize (env : NativeEnv) (maxLength : Nat)
    (hneg : env.result < 0) (hlo : -(2 : Int) ^ 31 ≤ env.result) (hmsg : env.errMsg = none) :
    Logger.handle_error env = Except.ok () ∧
    Logger.read env maxLength =
      Except.ok (resizeVec (env.write (List.replicate maxLength 0) maxLength)
        (usizeOfInt env.result)) ∧
    (resizeVec (env.write (List.replicate maxLength 0) maxLength)
      (usizeOfInt env.result)).length = usizeOfInt env.result ∧
    2 ^ 63 < usizeOfInt env.result := by
  have hok : Logger.handle_error env = Except.ok () := by
    unfold Logger.handle_error hid_error
    rw [hmsg]
  refine ⟨hok, ?_, resizeVec_length _ _, ?_⟩
  · unfold Logger.read Logger.handle_buffer_and_error hid_read
    simp [hneg, hok]
  · have h64 : (2 : Int) ^ 64 = 18446744073709551616 := by norm_num
    have h31 : (2 : Int) ^ 31 = 2147483648 := by norm_num
    have h63 : (2 : Nat) ^ 63 = 9223372036854775808 := by norm_num
    unfold usizeOfInt
    rw [h64, h63]
    rw [h31] at hlo
    omega

/-- Witness for C10 at native result -1 with a null error message. -/
theorem C10_witness :
    (-1 : Int) < 0 ∧ -(2 : Int) ^ 31 ≤ (-1 : Int) ∧
    (NativeEnv.mk (-1) (fun b _ => b) none).errMsg = none ∧
    (Logger.handle_error ⟨-1, fun b _ => b, none⟩ = Except.ok () ∧
      Logger.read ⟨-1, fun b _ => b, none⟩ 2 =
        Except.ok (resizeVec ((NativeEnv.mk (-1) (fun b _ => b) none).write
          (List.replicate 2 0) 2) (usizeOfInt (-1))) ∧
      (resizeVec ((NativeEnv.mk (-1) (fun b _ => b) none).write (List.replicate 2 0) 2)
        (usizeOfInt (-1))).length = usizeOfInt (-1) ∧
      2 ^ 63 < usizeOfInt (-1)) :=
  ⟨by decide, by decide, rfl,
    C10_negative_null_no_error_resize ⟨-1, fun b _ => b, none⟩ 2 (by decide) (by decide) rfl⟩

/-- Claim C3 counterexample: with exactly one attached device matching the
hardcoded pair 0x1532/0x0b00 (and a successful open), the demo CLI prints
the device, prints the match banner, opens the path and sets blocking
mode, then exits 0 — its complete event trace contains no read at all, so
the claimed ~500 ms of read polling (with report size / version /
sequence printing, and a read-error exit path) does not happen. -/
theorem C3_counterexample_no_polling :
    (Logger.mainDemo Logger.envFound).1 = 0 ∧
    (Logger.mainDemo Logger.envFound).2 =
      [Logger.DemoEvent.printDevice Logger.hdkDevice, Logger.DemoEvent.printHdkFound,
        Logger.DemoEvent.openDev "p", Logger.DemoEvent.setBlocking (some 1)] ∧
    ((Logger.mainDemo Logger.envFound).2.all fun e => !e.isRead) = true :=
  ⟨rfl, rfl, rfl⟩

/-- Claim C3 as amended: for every simulated device chain, the demo CLI
exits with 0 or -1; it exits 0 exactly when the path of the last device
matching the hardcoded pair is nonempty (in which case it opens that path
and sets blocking mode); it prints every enumerated device's fields; and
it performs no read polling at all. -/
theorem C3_amended_demo_behavior (env : Logger.DemoEnv) :
    ((Logger.mainDemo env).1 = 0 ∨ (Logger.mainDemo env).1 = -1) ∧
    ((Logger.mainDemo env).1 = 0 ↔
      (((env.devices.filter fun d => Logger.hdkMatch d).getLast?.map
        Logger.DeviceInfo.path).getD "") ≠ "") ∧
    env.devices.map Logger.DemoEvent.printDevice ⊆ (Logger.mainDemo env).2 ∧
    ((Logger.mainDemo env).2.all fun e => !e.isRead) = true := by
  have hfst := demoLoop_fst env.devices ""
  by_cases hp : (Logger.demoLoop env.devices "").1 = ""
  · have hmain : Logger.mainDemo env =
        (-1, (Logger.demoLoop env.devices "").2 ++ [Logger.DemoEvent.printNotFound]) := by
      unfold Logger.mainDemo
      rw [if_pos hp]
    rw [hmain]
    refine ⟨Or.inr rfl, ?_, ?_, ?_⟩
    · rw [← hfst]
      simp [hp]
    · intro x hx
      exact List.mem_append_left _ (demoLoop_prints env.devices "" hx)
    · rw [List.all_append, demoLoop_noRead env.devices ""]
      rfl
  · have hmain : Logger.mainDemo env =
        (0, (Logger.demoLoop env.devices "").2 ++
          [Logger.DemoEvent.openDev (Logger.demoLoop env.devices "").1,
            Logger.DemoEvent.setBlocking (env.openPath (Logger.demoLoop env.devices "").1)]) := by
      unfold Logger.mainDemo
      rw [if_neg hp]
    rw [hmain]
    refine ⟨Or.inl rfl, ?_, ?_, ?_⟩
    · rw [← hfst]
      simp [hp]
    · intro x hx
      exact List.mem_append_left _ (demoLoop_prints env.devices "" hx)
    · rw [List.all_append, demoLoop_noRead env.devices ""]
      rfl
